import Mathlib

/-!
Verification development for the CDM dashboard core (src/streamlit_app.py).

The core pipeline is: country-token resolution (token_to_iso3), row-level
multi-country explosion (split_countries / make_exploded_for_geo), filter
application (apply_filters) and KPI aggregation.  We embed it shallowly:

* A cell of the table is `Option String`: `none` models a pandas missing
  value (NaN); every present cell is kept as its string form (all cells the
  core inspects are compared as strings or coerced with pd.to_numeric).
* A `Row` is an association list from column name to cell; a `Table` carries
  its column list (pandas column index) and its rows.
* pandas operations used by the source (`astype(str)`, `isin`,
  `str.contains(case=False)`, `explode`, `pd.to_numeric(errors="coerce")`,
  `groupby(...).size()` with its default key sort) are embedded with their
  pandas semantics.  `str.contains` interprets the query as a regular
  expression; for queries free of regex metacharacters this coincides with
  case-insensitive literal substring search, which is what `strContainsCI`
  implements, so theorems about the text filter restrict to such queries
  where it matters.
* `pycountry` is an external reference database.  We embed the finite
  excerpt of its country table that the development needs and the exact
  (case-insensitive, fail-closed) lookup semantics the spec ascribes to it.
-/

/-- A table cell: `none` is a pandas missing value (NaN), otherwise the
cell's string form. -/
abbrev Cell := Option String

/-- A row: association list from column name to cell. -/
abbrev Row := List (String × Cell)

/-- A table: pandas column index plus the list of rows. -/
structure Table where
  cols : List String
  rows : List Row
deriving DecidableEq, Repr

/-- Cell access `row[col]`: `none` both for a missing entry and for a stored
NaN (pandas shows NaN in both situations once the column exists). -/
def getCell (r : Row) (c : String) : Cell :=
  match r.find? (fun p => p.1 == c) with
  | some p => p.2
  | none => none

/-- pandas `astype(str)`: a missing value prints as the string "nan". -/
def strOfCell : Cell → String
  | none => "nan"
  | some s => s

/-!
Character-level implementations of the Python string operations the source
uses (`strip`, `lower`, `upper`, `split`, `in`, `isalpha`).  They are
structural recursions over the character list of a string, so that every
concrete instance evaluates by `rfl`/`decide`.  All strings the source
compares this way are ASCII where it matters; the lower/upper maps are the
ASCII case maps (characters outside A–Z / a–z are untouched).
-/

/-- ASCII lower-casing of one character (Python `str.lower` on ASCII). -/
def pyLowerChar (c : Char) : Char :=
  if 65 ≤ c.toNat ∧ c.toNat ≤ 90 then Char.ofNat (c.toNat + 32) else c

/-- ASCII upper-casing of one character (Python `str.upper` on ASCII). -/
def pyUpperChar (c : Char) : Char :=
  if 97 ≤ c.toNat ∧ c.toNat ≤ 122 then Char.ofNat (c.toNat - 32) else c

/-- Python `str.lower` (ASCII). -/
def lowerStr (s : String) : String := ⟨s.data.map pyLowerChar⟩

/-- Python `str.upper` (ASCII). -/
def upperStr (s : String) : String := ⟨s.data.map pyUpperChar⟩

/-- The whitespace characters Python `str.strip` removes. -/
def isSpaceChar (c : Char) : Bool :=
  c.toNat = 32 || c.toNat = 9 || c.toNat = 10
    || c.toNat = 13 || c.toNat = 11 || c.toNat = 12

/-- Python `str.strip`: drop leading and trailing whitespace. -/
def trimStr (s : String) : String :=
  ⟨((s.data.dropWhile isSpaceChar).reverse.dropWhile isSpaceChar).reverse⟩

/-- Split a character list at every occurrence of `sep` (Python
`str.split(sep)` semantics: n separators give n+1 pieces, `"".split` gives
one empty piece). -/
def splitChar (sep : Char) (l : List Char) : List (List Char) :=
  l.foldr
    (fun c acc =>
      if c = sep then [] :: acc
      else
        match acc with
        | g :: gs => (c :: g) :: gs
        | [] => [[c]])
    [[]]

/-- Python `s.split(sep)` for a one-character separator. -/
def splitStr (sep : Char) (s : String) : List String :=
  (splitChar sep s.data).map (fun l => ⟨l⟩)

/-- Python `sep in s` for a one-character needle. -/
def containsChar (s : String) (c : Char) : Bool := s.data.contains c

/-- Python `str.isalpha` (ASCII letters; every token the resolver length-
tests this way is ASCII). -/
def isAlphaStr (s : String) : Bool :=
  s.data ≠ [] && s.data.all (fun c =>
    (65 ≤ c.toNat ∧ c.toNat ≤ 90) ∨ (97 ≤ c.toNat ∧ c.toNat ≤ 122))

/-- Lexicographic comparison of character lists by code point. -/
def leChars : List Char → List Char → Bool
  | [], _ => true
  | _ :: _, [] => false
  | a :: as, b :: bs =>
    if a.toNat < b.toNat then true
    else if a.toNat = b.toNat then leChars as bs
    else false

/-- Lexicographic ≤ on strings (the sort order of pandas group keys for
the ASCII keys this development sorts). -/
def leStr (x y : String) : Bool := leChars x.data y.data

/-- One record of the embedded pycountry reference database. -/
structure Country where
  alpha_2 : String
  alpha_3 : String
  name : String
deriving DecidableEq, Repr

/-- The finite excerpt of the pycountry ISO 3166 database that the
resolver's inputs in this development touch (real codes and names). -/
def pycountry_db : List Country :=
  [ ⟨"ID", "IDN", "Indonesia"⟩,
    ⟨"CL", "CHL", "Chile"⟩,
    ⟨"EG", "EGY", "Egypt"⟩,
    ⟨"VN", "VNM", "Viet Nam"⟩,
    ⟨"KR", "KOR", "Korea, Republic of"⟩,
    ⟨"IR", "IRN", "Iran, Islamic Republic of"⟩,
    ⟨"LA", "LAO", "Lao People\x27s Democratic Republic"⟩,
    ⟨"CD", "COD", "Congo, The Democratic Republic of the"⟩,
    ⟨"CI", "CIV", "Côte d\x27Ivoire"⟩ ]

/-- `pycountry.countries.get(alpha_2=x)`: exact match on the ISO2 field. -/
def pycountryGetAlpha2 (x : String) : Option Country :=
  pycountry_db.find? (fun c => c.alpha_2 == x)

/-- `pycountry.countries.get(alpha_3=x)`: exact match on the ISO3 field. -/
def pycountryGetAlpha3 (x : String) : Option Country :=
  pycountry_db.find? (fun c => c.alpha_3 == x)

/-- `pycountry.countries.lookup(tok).alpha_3`, with the fail-closed
semantics the spec ascribes to name lookup: case-insensitive exact match
against the code and name fields; zero or several candidate records give
no result. -/
def pycountryLookup (tok : String) : Option String :=
  match pycountry_db.filter
      (fun c => lowerStr c.alpha_2 == lowerStr tok
        || lowerStr c.alpha_3 == lowerStr tok
        || lowerStr c.name == lowerStr tok) with
  | [c] => some c.alpha_3
  | _ => none

/-- The hand-maintained alias table SPECIAL_ISO3 of the source. -/
def SPECIAL_ISO3 : List (String × String) :=
  [ ("Republic of Korea", "KOR"),
    ("Korea, Republic of", "KOR"),
    ("Viet Nam", "VNM"),
    ("Iran", "IRN"),
    ("Iran (Islamic Republic of)", "IRN"),
    ("Lao PDR", "LAO"),
    ("Democratic Republic of the Congo", "COD"),
    ("Congo, The Democratic Republic of the", "COD"),
    ("Cote d\x27Ivoire", "CIV"),
    ("Côte d’Ivoire", "CIV") ]

/-- Python `dict` membership plus indexing on an association list. -/
def lookupAssoc (l : List (String × String)) (k : String) : Option String :=
  (l.find? (fun p => p.1 == k)).map (fun p => p.2)

/-- `token_to_iso3` of the source: trim; map "multiple"/""/"nan" to
unresolved; alias table; two alphabetic characters as ISO2; three as ISO3;
otherwise name lookup. `none` is Python's `None` (unresolved). -/
def token_to_iso3 (tok0 : String) : Option String :=
  let tok := trimStr tok0
  if lowerStr tok = "multiple" || lowerStr tok = "" || lowerStr tok = "nan" then
    none
  else
    match lookupAssoc SPECIAL_ISO3 tok with
    | some v => some v
    | none =>
      if tok.data.length = 2 && isAlphaStr tok then
        (pycountryGetAlpha2 (upperStr tok)).map (fun c => c.alpha_3)
      else if tok.data.length = 3 && isAlphaStr tok then
        (pycountryGetAlpha3 (upperStr tok)).map (fun c => c.alpha_3)
      else
        pycountryLookup tok

/-- `split_countries` of the source: NaN gives `[]`; a cell containing a
semicolon is split on `;`, each piece trimmed, empty and "multiple" pieces
dropped; otherwise the whole trimmed cell is the single token. -/
def split_countries (val : Cell) : List String :=
  match val with
  | none => []
  | some s =>
    if containsChar s (Char.ofNat 59) then
      ((splitStr (Char.ofNat 59) s).map trimStr).filter
        (fun t => t ≠ "" && lowerStr t ≠ "multiple")
    else
      [trimStr s]

/-- pandas `Series.explode` of a list column: an empty list contributes a
single NaN entry, otherwise one entry per element. -/
def explodeList (l : List String) : List (Option String) :=
  match l with
  | [] => [none]
  | _ => l.map some

/-- The per-record body of `make_exploded_for_geo` of the source: split the
host-country cell, explode, `astype(str).str.strip()` into `country_clean`,
resolve to `iso3`, and keep only the entries whose `iso3` is not NaN.
Each survivor is the original row tagged with (country_clean, iso3). -/
def expandRecord (r : Row) : List (Row × String × String) :=
  (explodeList (split_countries (getCell r "Host country"))).filterMap
    (fun htok =>
      let cc := trimStr (strOfCell htok)
      match token_to_iso3 cc with
      | some i => some (r, cc, i)
      | none => none)

/-- `make_exploded_for_geo` of the source.  The source indexes
`ex["Host country"]` without a presence check, so on a table without that
column pandas raises `KeyError`; we return that as an `Except.error`. -/
def make_exploded_for_geo (t : Table) : Except String (List (Row × String × String)) :=
  if "Host country" ∈ t.cols then
    Except.ok (t.rows.flatMap expandRecord)
  else
    Except.error "KeyError: Host country"

/-- The FilterSpec assembled by the sidebar: one selected-value list per
categorical dimension (an absent column's multiselect returns None and an
untouched one returns the empty list — both are falsy in `filt`, so both
are modelled as `[]`) plus the Title search query (empty = no query). -/
structure FilterSpec where
  region : List String := []
  subregion : List String := []
  host : List String := []
  type0 : List String := []
  type1 : List String := []
  transition : List String := []
  method : List String := []
  approved : List String := []
  titleQuery : String := ""
deriving DecidableEq, Repr

/-- pandas `out[col].isin(selected)` at one row: the cell's value is a
member of the selected list; a NaN cell is never a member. -/
def rowMatchesSel (col : String) (selected : List String) (r : Row) : Bool :=
  match getCell r col with
  | some v => selected.contains v
  | none => false

/-- The inner `filt` of `apply_filters`: with a truthy (non-empty)
selection and a present column, keep the rows whose cell is in the
selection; otherwise leave the table unchanged. -/
def filt (col : String) (selected : List String) (t : Table) : Table :=
  if selected ≠ [] ∧ col ∈ t.cols then
    { t with rows := t.rows.filter (rowMatchesSel col selected) }
  else t

/-- Case-insensitive literal substring test, the semantics of pandas
`str.contains(q, case=False)` for queries without regex metacharacters. -/
def strContainsCI (hay q : String) : Bool :=
  ((lowerStr hay).data.tails).any (fun t => (lowerStr q).data.isPrefixOf t)

/-- The Title text search of `apply_filters`: with the Title column present
and a non-empty query, keep the rows whose Title, via `astype(str)` (NaN
becomes the string "nan"), case-insensitively contains the query. -/
def textFilter (q : String) (t : Table) : Table :=
  if "Title" ∈ t.cols ∧ q ≠ "" then
    { t with rows :=
        t.rows.filter (fun r => strContainsCI (strOfCell (getCell r "Title")) q) }
  else t

/-- `apply_filters` of the source: the eight categorical `filt` stages in
source order, then the Title text search.  (`df.copy()` is the identity in
value semantics.) -/
def apply_filters (s : FilterSpec) (t : Table) : Table :=
  textFilter s.titleQuery
    (filt "Approved by Host Party" s.approved
      (filt "Methodology after transition" s.method
        (filt "Transition Request" s.transition
          (filt "Type.1" s.type1
            (filt "Type" s.type0
              (filt "Host country" s.host
                (filt "Sub-region" s.subregion
                  (filt "Region" s.region t))))))))

/-- Value of a decimal digit character. -/
def digitVal (c : Char) : Nat := c.toNat - 48

/-- Natural number denoted by a digit list (most significant first). -/
def natOfDigits (l : List Char) : Nat :=
  l.foldl (fun n c => n * 10 + digitVal c) 0

/-- `pd.to_numeric(s, errors="coerce")` on a string cell, restricted to
plain decimal literals: optional sign, digits with at most one decimal
point, at least one digit in total; anything else coerces to NaN (`none`).
(Scientific notation is not needed by any input in this development.) -/
def isDigitChar (c : Char) : Bool := 48 ≤ c.toNat && c.toNat ≤ 57

/-- Unsigned decimal-literal parse of a character list: digits with at
most one decimal point and at least one digit in total. -/
def parseUnsigned (cs : List Char) : Option ℚ :=
  match splitChar (Char.ofNat 46) cs with
  | [ip] =>
    if ip ≠ [] && ip.all isDigitChar then
      some ((natOfDigits ip : ℚ))
    else none
  | [ip, fp] =>
    if (ip ≠ [] || fp ≠ []) && ip.all isDigitChar && fp.all isDigitChar then
      some ((natOfDigits ip : ℚ) + (natOfDigits fp : ℚ) / ((10 : ℚ) ^ fp.length))
    else none
  | _ => none

def parseRat (s0 : String) : Option ℚ :=
  match (trimStr s0).data with
  | '-' :: rest => (parseUnsigned rest).map (fun x => -x)
  | '+' :: rest => parseUnsigned rest
  | cs => parseUnsigned cs

/-- `pd.to_numeric(col, errors="coerce").fillna(0)` at one cell. -/
def numericOrZero (c : Cell) : ℚ :=
  match c with
  | none => 0
  | some s => (parseRat s).getD 0

/-- KPI `total_selected` of the source: `len(df_f)`. -/
def total_selected (t : Table) : Nat := t.rows.length

/-- KPI `requested_transition` of the source: rows whose Transition Request
cell, via `astype(str).str.lower()`, equals "yes"; 0 if the column is
absent. -/
def requested_transition (t : Table) : Nat :=
  if "Transition Request" ∈ t.cols then
    t.rows.countP (fun r => lowerStr (strOfCell (getCell r "Transition Request")) == "yes")
  else 0

/-- KPI `approved_yes` of the source, same pattern over Approved by Host
Party. -/
def approved_yes (t : Table) : Nat :=
  if "Approved by Host Party" ∈ t.cols then
    t.rows.countP (fun r => lowerStr (strOfCell (getCell r "Approved by Host Party")) == "yes")
  else 0

/-- KPI `reductions_sum` of the source: the sum of the Reductions column
coerced to numbers with non-coercible and missing entries as 0; 0 if the
column is absent. -/
def reductions_sum (t : Table) : ℚ :=
  if "Reductions (ktCO2e/yr)" ∈ t.cols then
    (t.rows.map (fun r => numericOrZero (getCell r "Reductions (ktCO2e/yr)"))).sum
  else 0

/-- The scalar KPI block of the source page. -/
structure KPIs where
  total_selected : Nat
  requested_transition : Nat
  approved_yes : Nat
  reductions_sum : ℚ
deriving DecidableEq, Repr

/-- The four KPIs, all computed from one table. -/
def computeKPIs (t : Table) : KPIs :=
  ⟨total_selected t, requested_transition t, approved_yes t, reductions_sum t⟩

/-- Insert a string into a ≤-sorted list, keeping it sorted. -/
def insertStr (x : String) : List String → List String
  | [] => [x]
  | y :: ys => if leStr x y then x :: y :: ys else y :: insertStr x ys

/-- Insertion sort on strings (the key order of pandas `groupby`, which
sorts group keys by default). -/
def sortStrs (l : List String) : List String := l.foldr insertStr []

/-- Drop consecutive duplicates of a sorted list. -/
def dedupSorted : List String → List String
  | [] => []
  | [x] => [x]
  | x :: y :: ys =>
    if x = y then dedupSorted (y :: ys) else x :: dedupSorted (y :: ys)

/-- `groupby(key).size()` over a list of keys: each distinct key in sorted
order with its multiplicity. -/
def group_sizes (keys : List String) : List (String × Nat) :=
  (dedupSorted (sortStrs keys)).map (fun k => (k, keys.count k))

/-- The choropleth input of the source: `ex.groupby("iso3").size()` over
the exploded table. -/
def geo_counts (ex : List (Row × String × String)) : List (String × Nat) :=
  group_sizes (ex.map (fun e => e.2.2))

/-- One interaction cycle of the page: filter the loaded table, compute the
KPIs from the filtered table, and build the exploded geographic table from
the filtered table. -/
structure DashboardOut where
  detail : Table
  kpis : KPIs
  geo : Except String (List (Row × String × String))
deriving Repr

/-- The main script body: `df_f = apply_filters(df)`, the KPI block over
`df_f`, and `ex = make_exploded_for_geo(df_f)`. -/
def run_dashboard (s : FilterSpec) (df : Table) : DashboardOut :=
  let df_f := apply_filters s df
  ⟨df_f, computeKPIs df_f, make_exploded_for_geo df_f⟩

/-- A string is a valid ISO3 code: it is the alpha_3 field of some record
of the reference database. -/
def validISO3 (c : String) : Bool :=
  pycountry_db.any (fun k => k.alpha_3 == c)

/-- A query whose characters are alphanumeric or spaces; on such queries
pandas regex containment is literal substring containment. -/
def regexFree (q : String) : Bool :=
  q.data.all (fun c =>
    isDigitChar c || (65 ≤ c.toNat && c.toNat ≤ 90)
      || (97 ≤ c.toNat && c.toNat ≤ 122) || c.toNat = 32)

/-- The spec-side reading of a Title cell (for comparison with the code):
"rows with missing text are treated as empty string". -/
def specTitleText : Cell → String
  | none => ""
  | some s => s

/-! ### Helper lemmas -/

lemma validISO3_of_mem {k : Country} (hm : k ∈ pycountry_db) :
    validISO3 k.alpha_3 = true :=
  List.any_eq_true.mpr ⟨k, hm, by simp⟩

lemma special_values_valid : ∀ p ∈ SPECIAL_ISO3, validISO3 p.2 = true := by decide

lemma rowMatchesSel_iff (col : String) (sel : List String) (r : Row) :
    rowMatchesSel col sel r = true ↔ ∃ v, getCell r col = some v ∧ v ∈ sel := by
  unfold rowMatchesSel
  cases h : getCell r col <;> simp

lemma filt_cols (col : String) (sel : List String) (t : Table) :
    (filt col sel t).cols = t.cols := by
  unfold filt; split <;> rfl

lemma textFilter_cols (q : String) (t : Table) :
    (textFilter q t).cols = t.cols := by
  unfold textFilter; split <;> rfl

lemma filt_id (col : String) (t : Table) : filt col [] t = t := by
  simp [filt]

lemma textFilter_id (t : Table) : textFilter "" t = t := by
  simp [textFilter]

lemma filt_rows_sublist (col : String) (sel : List String) (t : Table) :
    List.Sublist (filt col sel t).rows t.rows := by
  unfold filt; split
  · exact List.filter_sublist _
  · exact List.Sublist.refl _

lemma textFilter_rows_sublist (q : String) (t : Table) :
    List.Sublist (textFilter q t).rows t.rows := by
  unfold textFilter; split
  · exact List.filter_sublist _
  · exact List.Sublist.refl _

lemma apply_filters_sublist (s : FilterSpec) (t : Table) :
    List.Sublist (apply_filters s t).rows t.rows := by
  unfold apply_filters
  exact (textFilter_rows_sublist _ _).trans
    ((filt_rows_sublist _ _ _).trans
      ((filt_rows_sublist _ _ _).trans
        ((filt_rows_sublist _ _ _).trans
          ((filt_rows_sublist _ _ _).trans
            ((filt_rows_sublist _ _ _).trans
              ((filt_rows_sublist _ _ _).trans
                ((filt_rows_sublist _ _ _).trans
                  (filt_rows_sublist _ _ _))))))))

/-- The per-row keep condition of one categorical `filt` stage. -/
def catKeep (col : String) (sel : List String) (cols : List String) (r : Row) : Bool :=
  if sel ≠ [] ∧ col ∈ cols then rowMatchesSel col sel r else true

/-- The per-row keep condition of the text search stage. -/
def textKeep (q : String) (cols : List String) (r : Row) : Bool :=
  if "Title" ∈ cols ∧ q ≠ "" then strContainsCI (strOfCell (getCell r "Title")) q
  else true

lemma catKeep_of_active {col : String} {sel : List String} {cols : List String}
    (h : sel ≠ [] ∧ col ∈ cols) :
    catKeep col sel cols = rowMatchesSel col sel :=
  funext fun _ => if_pos h

lemma catKeep_of_inactive {col : String} {sel : List String} {cols : List String}
    (h : ¬(sel ≠ [] ∧ col ∈ cols)) :
    catKeep col sel cols = fun _ => true :=
  funext fun _ => if_neg h

lemma textKeep_of_active {q : String} {cols : List String}
    (h : "Title" ∈ cols ∧ q ≠ "") :
    textKeep q cols = fun r => strContainsCI (strOfCell (getCell r "Title")) q :=
  funext fun _ => if_pos h

lemma textKeep_of_inactive {q : String} {cols : List String}
    (h : ¬("Title" ∈ cols ∧ q ≠ "")) :
    textKeep q cols = fun _ => true :=
  funext fun _ => if_neg h

lemma filt_rows (col : String) (sel : List String) (t : Table) :
    (filt col sel t).rows = t.rows.filter (catKeep col sel t.cols) := by
  by_cases h : sel ≠ [] ∧ col ∈ t.cols
  · unfold filt
    rw [if_pos h, catKeep_of_active h]
  · unfold filt
    rw [if_neg h, catKeep_of_inactive h, List.filter_true]

lemma textFilter_rows (q : String) (t : Table) :
    (textFilter q t).rows = t.rows.filter (textKeep q t.cols) := by
  by_cases h : "Title" ∈ t.cols ∧ q ≠ ""
  · unfold textFilter
    rw [if_pos h, textKeep_of_active h]
  · unfold textFilter
    rw [if_neg h, textKeep_of_inactive h, List.filter_true]

/-- `sel2` constrains at least as much as `sel1`: either `sel1` is inactive
(empty, hence no constraint), or `sel2` is an active subselection of it. -/
def selStronger (sel2 sel1 : List String) : Prop :=
  sel1 = [] ∨ (sel2 ≠ [] ∧ sel2 ⊆ sel1)

/-- `s2` adds constraints to `s1`: per categorical dimension an active
subselection (or `s1` inactive), and a text query added where `s1` had
none or kept identical. -/
def Stronger (s2 s1 : FilterSpec) : Prop :=
  selStronger s2.region s1.region ∧
  selStronger s2.subregion s1.subregion ∧
  selStronger s2.host s1.host ∧
  selStronger s2.type0 s1.type0 ∧
  selStronger s2.type1 s1.type1 ∧
  selStronger s2.transition s1.transition ∧
  selStronger s2.method s1.method ∧
  selStronger s2.approved s1.approved ∧
  (s1.titleQuery = "" ∨ s2.titleQuery = s1.titleQuery)

lemma catKeep_mono (col : String) {sel2 sel1 : List String} (cols : List String)
    (hsel : selStronger sel2 sel1) :
    ∀ r, catKeep col sel2 cols r = true → catKeep col sel1 cols r = true := by
  intro r h2
  rcases hsel with h1 | ⟨hne, hsub⟩
  · simp [catKeep, h1]
  · by_cases hc : col ∈ cols
    · have hne1 : sel1 ≠ [] := by
        intro h1
        subst h1
        exact hne (List.subset_nil.mp hsub)
      rw [catKeep, if_pos ⟨hne, hc⟩] at h2
      rw [catKeep, if_pos ⟨hne1, hc⟩]
      rcases (rowMatchesSel_iff _ _ _).mp h2 with ⟨v, hv, hmem⟩
      exact (rowMatchesSel_iff _ _ _).mpr ⟨v, hv, hsub hmem⟩
    · simp [catKeep, hc]

lemma textKeep_mono {q2 q1 : String} (cols : List String)
    (hq : q1 = "" ∨ q2 = q1) :
    ∀ r, textKeep q2 cols r = true → textKeep q1 cols r = true := by
  intro r h2
  rcases hq with h | h
  · simp [textKeep, h]
  · subst h; exact h2

lemma filt_mono (col : String) {sel2 sel1 : List String} {t2 t1 : Table}
    (hsel : selStronger sel2 sel1) (hc : t2.cols = t1.cols)
    (hr : List.Sublist t2.rows t1.rows) :
    (filt col sel2 t2).cols = (filt col sel1 t1).cols ∧
    List.Sublist (filt col sel2 t2).rows (filt col sel1 t1).rows := by
  constructor
  · rw [filt_cols, filt_cols, hc]
  · rw [filt_rows, filt_rows, hc]
    exact (hr.filter _).trans
      (List.monotone_filter_right _ (catKeep_mono col t1.cols hsel))

lemma textFilter_mono {q2 q1 : String} {t2 t1 : Table}
    (hq : q1 = "" ∨ q2 = q1) (hc : t2.cols = t1.cols)
    (hr : List.Sublist t2.rows t1.rows) :
    (textFilter q2 t2).cols = (textFilter q1 t1).cols ∧
    List.Sublist (textFilter q2 t2).rows (textFilter q1 t1).rows := by
  constructor
  · rw [textFilter_cols, textFilter_cols, hc]
  · rw [textFilter_rows, textFilter_rows, hc]
    exact (hr.filter _).trans
      (List.monotone_filter_right _ (textKeep_mono t1.cols hq))

lemma strContainsCI_iff (hay q : String) :
    strContainsCI hay q = true ↔ (lowerStr q).data <:+: (lowerStr hay).data := by
  unfold strContainsCI
  rw [List.any_eq_true]
  constructor
  · rintro ⟨tl, htl, hpre⟩
    exact List.infix_iff_prefix_suffix.mpr
      ⟨tl, List.isPrefixOf_iff_prefix.mp hpre, (List.mem_tails _ _).mp htl⟩
  · intro h
    rcases List.infix_iff_prefix_suffix.mp h with ⟨tl, hp, hs⟩
    exact ⟨tl, (List.mem_tails _ _).mpr hs, List.isPrefixOf_iff_prefix.mpr hp⟩

/-! ### Claim theorems -/

/-- C1: the resolver maps "ID", "IDN" and "Indonesia" to "IDN", maps
"Multiple" and "" to unresolved, and maps "Viet Nam" to "VNM" through the
alias table (whose entry for "Viet Nam" is consulted before generic
lookup). -/
theorem cdm_resolver_examples :
    token_to_iso3 "ID" = some "IDN" ∧
    token_to_iso3 "IDN" = some "IDN" ∧
    token_to_iso3 "Indonesia" = some "IDN" ∧
    token_to_iso3 "Multiple" = none ∧
    token_to_iso3 "" = none ∧
    token_to_iso3 "Viet Nam" = some "VNM" ∧
    lookupAssoc SPECIAL_ISO3 "Viet Nam" = some "VNM" := by
  refine ⟨rfl, rfl, rfl, rfl, rfl, rfl, rfl⟩

/-- C4: on a record whose host-country cell is "CL; EG; Multiple" the
geographic expansion yields exactly the two pairs CL→CHL and EG→EGY (the
"Multiple" token contributes nothing), and on a record whose host-country
cell is missing the expansion yields the empty sequence. -/
theorem cdm_expand_record (r : Row) :
    (getCell r "Host country" = some "CL; EG; Multiple" →
      expandRecord r = [(r, "CL", "CHL"), (r, "EG", "EGY")]) ∧
    (getCell r "Host country" = none → expandRecord r = []) := by
  constructor
  · intro h
    unfold expandRecord
    rw [h]
    rfl
  · intro h
    unfold expandRecord
    rw [h]
    rfl

/-- Witness for C4 at two concrete records. -/
theorem cdm_expand_record_witness :
    expandRecord [("Host country", some "CL; EG; Multiple")] =
      [([("Host country", some "CL; EG; Multiple")], "CL", "CHL"),
       ([("Host country", some "CL; EG; Multiple")], "EG", "EGY")] ∧
    expandRecord [("Host country", (none : Cell))] = [] :=
  ⟨(cdm_expand_record _).1 rfl, (cdm_expand_record _).2 rfl⟩

/-- C5: the resolver is total by construction (a Lean function), and every
resolved result is a valid ISO3 code: whenever `token_to_iso3` returns a
code, that code is the alpha_3 field of a record of the reference
database; every failing or ambiguous lookup path returns `none`
(unresolved). -/
theorem cdm_resolver_valid_or_unresolved (tok c : String)
    (h : token_to_iso3 tok = some c) : validISO3 c = true := by
  simp only [token_to_iso3] at h
  split at h
  · exact absurd h (by simp)
  · split at h
    next v heq =>
      have hv : v = c := by injection h
      subst hv
      unfold lookupAssoc at heq
      rcases Option.map_eq_some'.mp heq with ⟨p, hfind, hp2⟩
      have hmem := List.mem_of_find?_eq_some hfind
      have hval := special_values_valid p hmem
      rwa [hp2] at hval
    next heq =>
      split at h
      · rcases Option.map_eq_some'.mp h with ⟨k, hget, hk⟩
        unfold pycountryGetAlpha2 at hget
        have hmem := List.mem_of_find?_eq_some hget
        rw [← hk]
        exact validISO3_of_mem hmem
      · split at h
        · rcases Option.map_eq_some'.mp h with ⟨k, hget, hk⟩
          unfold pycountryGetAlpha3 at hget
          have hmem := List.mem_of_find?_eq_some hget
          rw [← hk]
          exact validISO3_of_mem hmem
        · unfold pycountryLookup at h
          split at h
          next k heq =>
            have hk : k.alpha_3 = c := by injection h
            have hkmem : k ∈ pycountry_db.filter
                (fun cn => lowerStr cn.alpha_2 == lowerStr (trimStr tok)
                  || lowerStr cn.alpha_3 == lowerStr (trimStr tok)
                  || lowerStr cn.name == lowerStr (trimStr tok)) := by
              rw [heq]
              exact List.mem_singleton_self _
            rw [← hk]
            exact validISO3_of_mem (List.mem_filter.mp hkmem).1
          next =>
            exact absurd h (by simp)

/-- Witness for C5 at the concrete token "ID". -/
theorem cdm_resolver_valid_or_unresolved_witness :
    token_to_iso3 "ID" = some "IDN" ∧ validISO3 "IDN" = true :=
  ⟨by decide, cdm_resolver_valid_or_unresolved "ID" "IDN" (by decide)⟩

/-- C6: applying the filter engine with every categorical selection empty
and no text query is the identity; a `filt` stage with an empty selection
or an absent column, and the text stage with an empty query or absent
Title column, impose no constraint. -/
theorem cdm_filter_identity (t : Table) :
    apply_filters {} t = t ∧
    (∀ col sel, sel = [] ∨ col ∉ t.cols → filt col sel t = t) ∧
    (∀ q, q = "" ∨ "Title" ∉ t.cols → textFilter q t = t) := by
  refine ⟨?_, ?_, ?_⟩
  · show textFilter "" (filt "Approved by Host Party" []
        (filt "Methodology after transition" []
          (filt "Transition Request" []
            (filt "Type.1" []
              (filt "Type" []
                (filt "Host country" []
                  (filt "Sub-region" []
                    (filt "Region" [] t)))))))) = t
    simp only [filt_id, textFilter_id]
  · intro col sel h
    rcases h with h | h
    · subst h
      exact filt_id col t
    · unfold filt
      rw [if_neg (fun hc => h hc.2)]
  · intro q h
    rcases h with h | h
    · subst h
      exact textFilter_id t
    · unfold textFilter
      rw [if_neg (fun hc => h hc.1)]

/-- Witness for C6: identity on a concrete table, and no constraint from a
selection over an absent column. -/
theorem cdm_filter_identity_witness :
    apply_filters {} (Table.mk ["Region"] [[("Region", some "Asia")]]) =
      Table.mk ["Region"] [[("Region", some "Asia")]] ∧
    filt "Region" ["Asia"] (Table.mk ["Title"] [[("Title", some "x")]]) =
      Table.mk ["Title"] [[("Title", some "x")]] :=
  ⟨(cdm_filter_identity _).1,
   (cdm_filter_identity _).2.1 "Region" ["Asia"] (Or.inr (by decide))⟩

/-- C7: the filter engine is monotonically narrowing: a spec that adds
constraints (activates a previously inactive categorical predicate or text
query, or shrinks an active selection) never yields more rows. -/
theorem cdm_filter_monotonic (t : Table) (s1 s2 : FilterSpec)
    (h : Stronger s2 s1) :
    (apply_filters s2 t).rows.length ≤ (apply_filters s1 t).rows.length := by
  obtain ⟨h1, h2, h3, h4, h5, h6, h7, h8, hq⟩ := h
  have a1 := filt_mono "Region" h1 (rfl : t.cols = t.cols) (List.Sublist.refl t.rows)
  have a2 := filt_mono "Sub-region" h2 a1.1 a1.2
  have a3 := filt_mono "Host country" h3 a2.1 a2.2
  have a4 := filt_mono "Type" h4 a3.1 a3.2
  have a5 := filt_mono "Type.1" h5 a4.1 a4.2
  have a6 := filt_mono "Transition Request" h6 a5.1 a5.2
  have a7 := filt_mono "Methodology after transition" h7 a6.1 a6.2
  have a8 := filt_mono "Approved by Host Party" h8 a7.1 a7.2
  have a9 := textFilter_mono hq a8.1 a8.2
  exact a9.2.length_le

/-- Witness for C7: activating the host predicate on a two-row table never
increases the row count. -/
theorem cdm_filter_monotonic_witness :
    (apply_filters { host := ["CL"] }
        (Table.mk ["Host country"]
          [[("Host country", some "CL")], [("Host country", some "EG")]])).rows.length ≤
      (apply_filters {}
        (Table.mk ["Host country"]
          [[("Host country", some "CL")], [("Host country", some "EG")]])).rows.length :=
  cdm_filter_monotonic _ {} { host := ["CL"] }
    ⟨Or.inl rfl, Or.inl rfl, Or.inl rfl, Or.inl rfl, Or.inl rfl,
     Or.inl rfl, Or.inl rfl, Or.inl rfl, Or.inl rfl⟩

/-- C8: the filtered table is a sublist (hence subset, with no synthesized
or mutated row) of the original rows, and the dashboard's detail table and
scalar KPIs are computed from the filtered table, never from the exploded
geographic table. -/
theorem cdm_filter_subset_kpis_unexpanded (s : FilterSpec) (df : Table) :
    List.Sublist (run_dashboard s df).detail.rows df.rows ∧
    (run_dashboard s df).detail = apply_filters s df ∧
    (run_dashboard s df).kpis = computeKPIs (apply_filters s df) ∧
    (run_dashboard s df).kpis.total_selected = (apply_filters s df).rows.length :=
  ⟨apply_filters_sublist s df, rfl, rfl, rfl⟩

lemma apply_filters_hostOnly (sel : List String) (t : Table) :
    apply_filters { host := sel } t = filt "Host country" sel t := by
  show textFilter "" (filt "Approved by Host Party" []
      (filt "Methodology after transition" []
        (filt "Transition Request" []
          (filt "Type.1" []
            (filt "Type" []
              (filt "Host country" sel
                (filt "Sub-region" []
                  (filt "Region" [] t)))))))) = filt "Host country" sel t
  simp only [filt_id, textFilter_id]

/-- C10: a categorical predicate tests membership of the row's entire cell
value: with a non-empty Host-country selection (and the column present), a
row is kept precisely when its full host-country cell string is an element
of the selection; per-token expansion plays no role in filtering. -/
theorem cdm_categorical_whole_cell (t : Table) (sel : List String) (r : Row)
    (hsel : sel ≠ []) (hcol : "Host country" ∈ t.cols) :
    r ∈ (apply_filters { host := sel } t).rows ↔
      r ∈ t.rows ∧ ∃ v, getCell r "Host country" = some v ∧ v ∈ sel := by
  rw [apply_filters_hostOnly]
  unfold filt
  rw [if_pos ⟨hsel, hcol⟩]
  simp only [List.mem_filter, rowMatchesSel_iff]

/-- Witness for C10: the multi-country row "CL; EG" is not kept by the
selection ["CL"]. -/
theorem cdm_categorical_whole_cell_witness :
    (([("Host country", some "CL; EG")] : Row) ∈
        (apply_filters { host := ["CL"] }
          (Table.mk ["Host country"] [[("Host country", some "CL; EG")]])).rows ↔
      ([("Host country", some "CL; EG")] : Row) ∈
          (Table.mk ["Host country"] [[("Host country", some "CL; EG")]]).rows ∧
        ∃ v, getCell [("Host country", some "CL; EG")] "Host country" = some v ∧
          v ∈ ["CL"]) ∧
    ([("Host country", some "CL; EG")] : Row) ∉
      (apply_filters { host := ["CL"] }
        (Table.mk ["Host country"] [[("Host country", some "CL; EG")]])).rows :=
  ⟨cdm_categorical_whole_cell _ _ _ (by decide) (by decide), by decide⟩

/-- C2 counterexample: the code applies `astype(str)` before the substring
test, so a missing Title becomes the string "nan"; the non-empty query "a"
keeps a row whose Title is missing, while the claim's
missing-treated-as-empty-string reading matches nothing. -/
theorem cdm_text_missing_counterexample :
    (textFilter "a" (Table.mk ["Title"] [[("Title", (none : Cell))]])).rows =
      [[("Title", (none : Cell))]] ∧
    strContainsCI (specTitleText none) "a" = false :=
  ⟨rfl, rfl⟩

/-- C2 (amended): with the Title column present and a non-empty query free
of regex metacharacters, the text predicate keeps exactly the rows whose
Title, converted to text as pandas does (a missing value becoming the
string "nan"), case-insensitively contains the query as a literal
substring. -/
theorem cdm_text_filter_semantics (t : Table) (q : String) (r : Row)
    (hT : "Title" ∈ t.cols) (hq : q ≠ "") (_hlit : regexFree q = true) :
    r ∈ (textFilter q t).rows ↔
      r ∈ t.rows ∧
        (lowerStr q).data <:+: (lowerStr (strOfCell (getCell r "Title"))).data := by
  unfold textFilter
  rw [if_pos ⟨hT, hq⟩]
  simp only [List.mem_filter, strContainsCI_iff]

/-- Witness for C2 at a concrete table and query. -/
theorem cdm_text_filter_semantics_witness :
    ([("Title", some "Solar Farm")] : Row) ∈
        (textFilter "farm" (Table.mk ["Title"] [[("Title", some "Solar Farm")]])).rows ↔
      ([("Title", some "Solar Farm")] : Row) ∈
          (Table.mk ["Title"] [[("Title", some "Solar Farm")]]).rows ∧
        (lowerStr "farm").data <:+:
          (lowerStr (strOfCell (getCell [("Title", some "Solar Farm")] "Title"))).data :=
  cdm_text_filter_semantics _ _ _ (by decide) (by decide) (by decide)

/-- C3 counterexample: the geographic row expander indexes the
host-country column without a presence check, so on a table without it the
code raises (KeyError) instead of degrading to an empty expansion. -/
theorem cdm_missing_column_counterexample :
    make_exploded_for_geo (Table.mk ["Title"] [[("Title", some "x")]]) =
      Except.error "KeyError: Host country" :=
  rfl

/-- C3 (amended): the filter stages and the scalar aggregators degrade to
a neutral default when their column is absent (no constraint, zero count,
zero sum); the geographic row expander is the exception: it requires the
host-country column and errors when the column is absent. -/
theorem cdm_missing_column_defaults :
    (∀ col sel (t : Table), col ∉ t.cols → filt col sel t = t) ∧
    (∀ (q : String) (t : Table), "Title" ∉ t.cols → textFilter q t = t) ∧
    (∀ t : Table, "Transition Request" ∉ t.cols → requested_transition t = 0) ∧
    (∀ t : Table, "Approved by Host Party" ∉ t.cols → approved_yes t = 0) ∧
    (∀ t : Table, "Reductions (ktCO2e/yr)" ∉ t.cols → reductions_sum t = 0) ∧
    (∀ t : Table, "Host country" ∉ t.cols →
      make_exploded_for_geo t = Except.error "KeyError: Host country") := by
  refine ⟨?_, ?_, ?_, ?_, ?_, ?_⟩
  · intro col sel t h
    unfold filt
    rw [if_neg (fun hc => h hc.2)]
  · intro q t h
    unfold textFilter
    rw [if_neg (fun hc => h hc.1)]
  · intro t h
    unfold requested_transition
    rw [if_neg h]
  · intro t h
    unfold approved_yes
    rw [if_neg h]
  · intro t h
    unfold reductions_sum
    rw [if_neg h]
  · intro t h
    unfold make_exploded_for_geo
    rw [if_neg h]

/-- Witness for C3 on a concrete table having only an unrelated column. -/
theorem cdm_missing_column_defaults_witness :
    filt "Region" ["a"] (Table.mk ["X"] [[("X", some "v")]]) =
      Table.mk ["X"] [[("X", some "v")]] ∧
    textFilter "q" (Table.mk ["X"] [[("X", some "v")]]) =
      Table.mk ["X"] [[("X", some "v")]] ∧
    requested_transition (Table.mk ["X"] [[("X", some "v")]]) = 0 ∧
    approved_yes (Table.mk ["X"] [[("X", some "v")]]) = 0 ∧
    reductions_sum (Table.mk ["X"] [[("X", some "v")]]) = 0 ∧
    make_exploded_for_geo (Table.mk ["X"] [[("X", some "v")]]) =
      Except.error "KeyError: Host country" :=
  ⟨cdm_missing_column_defaults.1 _ _ _ (by decide),
   cdm_missing_column_defaults.2.1 _ _ (by decide),
   cdm_missing_column_defaults.2.2.1 _ (by decide),
   cdm_missing_column_defaults.2.2.2.1 _ (by decide),
   cdm_missing_column_defaults.2.2.2.2.1 _ (by decide),
   cdm_missing_column_defaults.2.2.2.2.2 _ (by decide)⟩

/-- The two-row example table of the spec's end-to-end property; the
spec's abstract field names Host Party and Reductions denote the code's
columns "Host country" and "Reductions (ktCO2e/yr)". -/
def demo_table : Table :=
  ⟨["Host country", "Transition Request", "Reductions (ktCO2e/yr)"],
   [[("Host country", some "ID"), ("Transition Request", some "Yes"),
     ("Reductions (ktCO2e/yr)", some "12.5")],
    [("Host country", some "CL; EG"), ("Transition Request", some "No"),
     ("Reductions (ktCO2e/yr)", some "bad")]]⟩

/-- C9: end-to-end on the two-row example with no filters active:
count = 2, count_yes = 1, sum = 12.5 (the value "bad" coerces to zero),
and geographic expansion counts IDN, CHL and EGY once each. -/
theorem cdm_end_to_end :
    apply_filters {} demo_table = demo_table ∧
    total_selected (apply_filters {} demo_table) = 2 ∧
    requested_transition (apply_filters {} demo_table) = 1 ∧
    reductions_sum (apply_filters {} demo_table) = 25 / 2 ∧
    (make_exploded_for_geo (apply_filters {} demo_table)).map geo_counts =
      Except.ok [("CHL", 1), ("EGY", 1), ("IDN", 1)] := by
  refine ⟨rfl, rfl, rfl, ?_, rfl⟩
  have hA : numericOrZero (some "12.5") =
      ((12 : ℕ) : ℚ) + ((5 : ℕ) : ℚ) / (10 : ℚ) ^ (1 : ℕ) := rfl
  have hB : numericOrZero (some "bad") = 0 := rfl
  show numericOrZero (some "12.5") + (numericOrZero (some "bad") + 0) = 25 / 2
  rw [hA, hB]
  norm_num
